import Mathlib

/-!
Verification development for the Monaco + Pyodide + Jedi Python editor.

The embedding follows three source files:
* `src/pyright.worker` (the unnamed worker file): the Pyodide/Jedi runtime
  adapter (`initializeJedi`, `getRuntime`, `analyzeCode`, `getCompletions`,
  `getHover`, `getDefinitions`), the Python bootstrap generated by
  `createJediBootstrap`, and the protocol handler installed with
  `workerCtx.addEventListener("message", ...)`.
* `src/components/MonacoEditor.tsx`: the client bridge (`callWorker`,
  `worker.onmessage`, the mount/cleanup effect) and the editor adapters
  (`provideCompletionItems`, `provideHover`, `handleEditorChange`).

External capabilities (Pyodide's `runPythonAsync`, the jedi and parso
libraries, `textwrap.dedent`) are opaque collaborators; they are modelled as
oracle functions supplied to the embedded definitions.  Stateful TS code is
embedded as explicit state passing; the client bridge, whose behaviour is
spread over event handlers (`callWorker`'s promise executor, the
`setTimeout` callback, `worker.onmessage`, the effect cleanup), is embedded
as a step function over an explicit event alphabet.
-/

/-! ### Worker data model (`src/pyright.worker` interfaces) -/

/-- `WorkerDiagnostic.severity`: `"error" | "warning"`. -/
inductive Severity
  | error
  | warning
deriving DecidableEq, Repr

/-- `interface WorkerDiagnostic` of the worker file. -/
structure WorkerDiagnostic where
  line : Int
  column : Int
  message : String
  severity : Severity
deriving DecidableEq, Repr

/-- `interface WorkerCompletionItem` of the worker file (same shape is
redeclared in `MonacoEditor.tsx`). -/
structure WorkerCompletionItem where
  name : String
  type : String
  description : String
  signature : String
  docstring : String
  insert_text : String
deriving DecidableEq, Repr

/-- `interface WorkerHoverPayload`: `contents : \x7b kind : "markdown"; value \x7d`.
The nested `contents` object is flattened into the two fields. -/
structure WorkerHoverPayload where
  kind : String
  value : String
deriving DecidableEq, Repr

/-- `interface DefinitionResult` of the worker file. -/
structure DefinitionResult where
  name : String
  line : Option Int
  column : Option Int
  description : String
deriving DecidableEq, Repr

/-- Request identifiers.  In the source a `requestId` is the string
`` `${type}-${Date.now()}-${requestIdCounter.current}` `` built in
`callWorker`; since the five type tags contain no dash and the other two
components are decimal numbers, that string determines and is determined by
the triple (type tag, `Date.now()` value, counter value), which is what we
store. -/
abbrev ReqId := String × Nat × Nat

/-- The counter component of a request id (third template slot). -/
def reqCounter (id : ReqId) : Nat := id.2.2

/-- `type WorkerRequest` of the worker file.  The `"initialize"` variant is
named `initializeReq` here. -/
inductive WReq
  | initializeReq (requestId : ReqId)
  | analyze (requestId : ReqId) (code : String)
  | completion (requestId : ReqId) (code : String) (line : Int) (column : Int)
  | hover (requestId : ReqId) (code : String) (line : Int) (column : Int)
  | definition (requestId : ReqId) (code : String) (line : Int) (column : Int)
deriving DecidableEq, Repr

/-- The `requestId` field common to all `WorkerRequest` variants. -/
def WReq.requestId : WReq → ReqId
  | .initializeReq id => id
  | .analyze id _ => id
  | .completion id _ _ _ => id
  | .hover id _ _ _ => id
  | .definition id _ _ _ => id

/-- `type WorkerResponse` of the worker file. -/
inductive WResp
  | initialized (requestId : ReqId) (success : Bool) (error : Option String)
  | analysis (requestId : ReqId) (diagnostics : List WorkerDiagnostic)
  | completion (requestId : ReqId) (data : List WorkerCompletionItem)
  | hover (requestId : ReqId) (data : Option WorkerHoverPayload)
  | definition (requestId : ReqId) (data : List DefinitionResult)
deriving DecidableEq, Repr

/-- The `requestId` field common to all `WorkerResponse` variants. -/
def WResp.requestId : WResp → ReqId
  | .initialized id _ _ => id
  | .analysis id _ => id
  | .completion id _ => id
  | .hover id _ => id
  | .definition id _ => id

/-! ### Python bootstrap generated by `createJediBootstrap(maxCompletions)`

The Python functions `get_completions`, `get_hover`, `get_diagnostics` and
`get_definitions` run inside Pyodide against the external jedi/parso
libraries.  A jedi name object (completion candidate, help name, goto
definition) is modelled by the attributes the bootstrap reads from it;
attributes that may be `None` or missing are `Option`-valued.  `jedi.Script`
construction and the query itself may raise, which every function's
`try/except` maps to the empty/null default: the oracle result is therefore
an `Option` whose `none` is the raised-exception case. -/

/-- `const MAX_COMPLETIONS = 50` in the worker file. -/
def MAX_COMPLETIONS : Nat := 50

/-- Attributes of a jedi name object read by the bootstrap.
`signatures` models `item.get_signatures()` with each signature already
rendered by `str(...)`; `docstring` models `_call_or_default(item,
"docstring")` with `none` for a missing attribute or a raising call mapped
to the default `""`; `complete` models `getattr(item, "complete", None)`;
`line`/`column` model `definition.line`/`definition.column`. -/
structure JediName where
  name : Option String
  type : Option String
  description : Option String
  signatures : List String
  docstring : Option String
  complete : Option String
  line : Option Int
  column : Option Int
deriving DecidableEq, Repr

/-- Python's `x or default` on an optional string: `None` and `""` are
falsy and give the default. -/
def pyOrStr (v : Option String) (default : String) : String :=
  match v with
  | none => default
  | some s => if s = "" then default else s

/-- `_call_or_default(obj, "docstring")` followed by `_clean_docstring`:
the default `""` (missing attribute or raising accessor) and the empty
string map to `""`, otherwise `textwrap.dedent(value).strip()` is applied.
`dedentStrip` is the opaque composite `textwrap.dedent` + `str.strip` of
the Python standard library. -/
def cleanDocstring (dedentStrip : String → String) (v : Option String) : String :=
  match v with
  | none => ""
  | some s => if s = "" then "" else dedentStrip s

/-- The dictionary `get_completions` appends for one candidate. -/
def pyCompletionItem (dedentStrip : String → String) (item : JediName) :
    WorkerCompletionItem :=
  { name := pyOrStr item.name ""
    type := pyOrStr item.type ""
    description := pyOrStr item.description ""
    signature := match item.signatures with
      | [] => ""
      | s :: _ => s
    docstring := cleanDocstring dedentStrip item.docstring
    insert_text := pyOrStr item.complete (pyOrStr item.name "") }

/-- `get_completions(code, line, column)` with the template parameter
`maxCompletions`: on success jedi yields the candidate list `candidates`
and the result maps the slice `completions[:maxCompletions]`; a raised
exception (`candidates = none`) yields `[]`. -/
def pyGetCompletions (maxCompletions : Nat) (dedentStrip : String → String)
    (candidates : Option (List JediName)) : List WorkerCompletionItem :=
  match candidates with
  | none => []
  | some l => (l.take maxCompletions).map (pyCompletionItem dedentStrip)

/-- The raw hover dictionary produced by the Python `get_hover` and parsed
back by the worker's `getHover`. -/
structure HoverRaw where
  name : String
  type : String
  description : String
  docstring : String
  signature : String
deriving DecidableEq, Repr

/-- `get_hover(code, line, column)`: `names = script.help(line, column)`;
empty or raising (`names = none`) yields JSON `null`, otherwise the first
name's attributes. -/
def pyGetHover (dedentStrip : String → String)
    (names : Option (List JediName)) : Option HoverRaw :=
  match names with
  | none => none
  | some [] => none
  | some (n :: _) =>
    some
      { name := pyOrStr n.name ""
        type := pyOrStr n.type ""
        description := pyOrStr n.description ""
        docstring := cleanDocstring dedentStrip n.docstring
        signature := match n.signatures with
          | [] => ""
          | s :: _ => s }

/-- A parso error as read by `get_diagnostics`: `error.start_pos` and
`error.message`. -/
structure ParsoError where
  line : Int
  column : Int
  message : String
deriving DecidableEq, Repr

/-- `get_diagnostics(code)`: one `"error"`-severity diagnostic per parso
error; a raised exception (`errors = none`) yields `[]`. -/
def pyGetDiagnostics (errors : Option (List ParsoError)) :
    List WorkerDiagnostic :=
  match errors with
  | none => []
  | some l =>
    l.map fun e =>
      { line := e.line, column := e.column, message := e.message
        severity := Severity.error }

/-- `get_definitions(code, line, column)`: maps `script.goto(line, column)`;
a raised exception yields `[]`. -/
def pyGetDefinitions (defs : Option (List JediName)) : List DefinitionResult :=
  match defs with
  | none => []
  | some l =>
    l.map fun d =>
      { name := pyOrStr d.name ""
        line := d.line
        column := d.column
        description := pyOrStr d.description "" }

/-! ### Worker runtime adapter (TS side of `src/pyright.worker`)

`initializeJedi` performs, in order: dynamic import of `pyodide.mjs` (cached
in the module-level `loadPyodideFn`), `loadPyodide(\x7b indexURL \x7d)` (assigned
to the module-level `pyodide`), `pyodide.loadPackage("micropip")`, running
`INSTALL_SCRIPT` (micropip-install of jedi and parso), and running
`createJediBootstrap(MAX_COMPLETIONS)`.  Each of the five awaited operations
may reject; the first rejection aborts the sequence and is rethrown, leaving
`jediInitialized` false.  The module-level mutable state is the record
`JediState`; the ghost field `log` records every bootstrap operation
attempted, so that "no redundant package installation" is expressible. -/

/-- The five awaited bootstrap operations of `initializeJedi`. -/
inductive InitStep
  | importModule
  | loadPyodide
  | loadMicropip
  | installJediParso
  | runBootstrap
deriving DecidableEq, Repr

/-- The opaque Pyodide runtime with the bootstrap's Python functions
defined in it: each field is the parsed result of
`runPythonAsync("get_<fn>(user_code, user_line, user_column)")` after the
corresponding `globals.set` calls, as a function of those globals. -/
structure PyOracle where
  diagnostics : String → List WorkerDiagnostic
  completions : String → Int → Int → List WorkerCompletionItem
  hover : String → Int → Int → Option HoverRaw
  definitions : String → Int → Int → List DefinitionResult

/-- Environment for one `initializeJedi` run: which awaited bootstrap
operations succeed, the `PyOracle` the successful loader yields, and the
`String(error)` text of a rejection. -/
structure InitEnv where
  stepOk : InitStep → Bool
  loader : PyOracle
  errText : String

/-- Module-level mutable state of the worker file: `loadPyodideFn` (whether
the dynamic-import result is cached), `pyodide`, `jediInitialized`, plus the
ghost `log` of attempted bootstrap operations. -/
structure JediState where
  loadPyodideFn : Bool
  pyodide : Option PyOracle
  jediInitialized : Bool
  log : List InitStep

/-- The worker's initial module state. -/
def initialJediState : JediState :=
  { loadPyodideFn := false, pyodide := none, jediInitialized := false
    log := [] }

/-- `const module = await import(PYODIDE_MODULE_URL); loadPyodideFn = loader`
— skipped when the loader is already cached. -/
def importModuleStep (env : InitEnv) (s : JediState) : JediState × Bool :=
  if s.loadPyodideFn then (s, true)
  else if env.stepOk InitStep.importModule then
    ({ s with log := s.log ++ [InitStep.importModule], loadPyodideFn := true },
      true)
  else ({ s with log := s.log ++ [InitStep.importModule] }, false)

/-- `pyodide = await loader(\x7b indexURL: PYODIDE_INDEX_URL \x7d)`. -/
def loadPyodideStep (env : InitEnv) (s : JediState) : JediState × Bool :=
  if env.stepOk InitStep.loadPyodide then
    ({ s with log := s.log ++ [InitStep.loadPyodide]
              pyodide := some env.loader }, true)
  else ({ s with log := s.log ++ [InitStep.loadPyodide] }, false)

/-- `await pyodide.loadPackage("micropip")`. -/
def loadMicropipStep (env : InitEnv) (s : JediState) : JediState × Bool :=
  ({ s with log := s.log ++ [InitStep.loadMicropip] },
    env.stepOk InitStep.loadMicropip)

/-- `await pyodide.runPythonAsync(INSTALL_SCRIPT)` — micropip-installs jedi
and parso. -/
def installScriptStep (env : InitEnv) (s : JediState) : JediState × Bool :=
  ({ s with log := s.log ++ [InitStep.installJediParso] },
    env.stepOk InitStep.installJediParso)

/-- `await pyodide.runPythonAsync(createJediBootstrap(MAX_COMPLETIONS))`. -/
def bootstrapStep (env : InitEnv) (s : JediState) : JediState × Bool :=
  ({ s with log := s.log ++ [InitStep.runBootstrap] },
    env.stepOk InitStep.runBootstrap)

/-- `async function initializeJedi()`: early return when `jediInitialized`;
otherwise the five bootstrap operations in order, aborting (and rethrowing:
result `false`) on the first rejection, and setting `jediInitialized` after
all succeed. -/
def initializeJedi (env : InitEnv) (s : JediState) : JediState × Bool :=
  if s.jediInitialized then (s, true)
  else
    match importModuleStep env s with
    | (s1, false) => (s1, false)
    | (s1, true) =>
      match loadPyodideStep env s1 with
      | (s2, false) => (s2, false)
      | (s2, true) =>
        match loadMicropipStep env s2 with
        | (s3, false) => (s3, false)
        | (s3, true) =>
          match installScriptStep env s3 with
          | (s4, false) => (s4, false)
          | (s4, true) =>
            match bootstrapStep env s4 with
            | (s5, false) => (s5, false)
            | (s5, true) => ({ s5 with jediInitialized := true }, true)

/-- `function getRuntime()`: `null` unless `pyodide` is set and
`jediInitialized` is true. -/
def getRuntime (s : JediState) : Option PyOracle :=
  match s.pyodide with
  | none => none
  | some rt => if s.jediInitialized then some rt else none

/-- One invocation of a Python analysis function inside the runtime: the
function name and the `user_code`/`user_line`/`user_column` globals set for
it (`line`/`column` are `none` for `get_diagnostics`, which takes none). -/
structure PyCall where
  fn : String
  code : String
  line : Option Int
  column : Option Int
deriving DecidableEq, Repr

/-- `async function analyzeCode(code)`: empty list and no runtime call when
`getRuntime()` is `null`; otherwise one `get_diagnostics` invocation.  The
second component is the ghost list of runtime invocations performed. -/
def analyzeCode (s : JediState) (code : String) :
    List WorkerDiagnostic × List PyCall :=
  match getRuntime s with
  | none => ([], [])
  | some rt =>
    (rt.diagnostics code, [{ fn := "get_diagnostics", code := code
                             line := none, column := none }])

/-- `async function getCompletions(code, line, column)`: empty list and no
runtime call when not ready; otherwise one `get_completions` invocation with
`user_line = Math.max(1, line)` and `user_column = Math.max(0, column)`. -/
def getCompletions (s : JediState) (code : String) (line column : Int) :
    List WorkerCompletionItem × List PyCall :=
  match getRuntime s with
  | none => ([], [])
  | some rt =>
    (rt.completions code (max 1 line) (max 0 column),
      [{ fn := "get_completions", code := code
         line := some (max 1 line), column := some (max 0 column) }])

/-- The markdown `value` built by `getHover` from the parsed hover
dictionary: header `**name** (type)`, then the truthy ones among signature
and docstring joined by blank lines; the header alone when both are
falsy. -/
def renderHoverValue (parsed : HoverRaw) : String :=
  let header := "**" ++ parsed.name ++ "** (" ++ parsed.type ++ ")"
  let details :=
    String.intercalate "\n\n"
      ([parsed.signature, parsed.docstring].filter (fun x => !x.isEmpty))
  if details.isEmpty then header else header ++ "\n\n" ++ details

/-- `async function getHover(code, line, column)`: `null` and no runtime
call when not ready; otherwise one `get_hover` invocation with the clamped
coordinates, a `null` parse mapped to `null`, and a hover dictionary
rendered into a markdown payload. -/
def getHover (s : JediState) (code : String) (line column : Int) :
    Option WorkerHoverPayload × List PyCall :=
  match getRuntime s with
  | none => (none, [])
  | some rt =>
    ((rt.hover code (max 1 line) (max 0 column)).map fun parsed =>
        { kind := "markdown", value := renderHoverValue parsed },
      [{ fn := "get_hover", code := code
         line := some (max 1 line), column := some (max 0 column) }])

/-- `async function getDefinitions(code, line, column)`: empty list and no
runtime call when not ready; otherwise one `get_definitions` invocation with
the clamped coordinates. -/
def getDefinitions (s : JediState) (code : String) (line column : Int) :
    List DefinitionResult × List PyCall :=
  match getRuntime s with
  | none => ([], [])
  | some rt =>
    (rt.definitions code (max 1 line) (max 0 column),
      [{ fn := "get_definitions", code := code
         line := some (max 1 line), column := some (max 0 column) }])

/-- The worker's `addEventListener("message", ...)` handler: dispatch on the
request type, reply through `respond` with one correlated response per
known request kind (the `default` branch of the source's `switch`, reached
only by values outside the `WorkerRequest` union, logs and sends nothing;
the typed alphabet `WReq` has no such value). -/
def handleWorkerMessage (env : InitEnv) (s : JediState) (req : WReq) :
    JediState × List WResp :=
  match req with
  | .initializeReq id =>
    let r := initializeJedi env s
    (r.1, [WResp.initialized id r.2 (if r.2 then none else some env.errText)])
  | .analyze id code =>
    (s, [WResp.analysis id (analyzeCode s code).1])
  | .completion id code line column =>
    (s, [WResp.completion id (getCompletions s code line column).1])
  | .hover id code line column =>
    (s, [WResp.hover id (getHover s code line column).1])
  | .definition id code line column =>
    (s, [WResp.definition id (getDefinitions s code line column).1])

/-! ### Client bridge (`src/components/MonacoEditor.tsx`)

The bridge state lives in React refs/state hooks: `workerRef`,
`isWorkerReady` (mirrored into `workerReadyRef`), `requestIdCounter`,
`pendingRequests` (a `Map` from request id to resolver closure), plus the
timers armed by `window.setTimeout` inside `callWorker` (one per call,
cancelled by the resolver's `clearTimeout`).  The behaviour is spread over
four event handlers, embedded as one step function:

* `BridgeEvent.call kind now` — a `callWorker(kind, payload)` invocation
  (`now` is the `Date.now()` sample used in the request id);
* `BridgeEvent.response r` — the `worker.onmessage` handler receiving `r`;
* `BridgeEvent.timeoutFire id` — the `setTimeout` callback of the call that
  created `id` firing (only an armed, uncancelled timer can fire: the event
  is a no-op when `id` carries no armed timer);
* `BridgeEvent.terminate` — the mount effect's cleanup (language switch
  away from Python or unmount).

Promise resolutions are recorded in the ghost list `resolutions`: the pair
`(id, some r)` when the pending resolver for `id` ran on response `r`, and
`(id, none)` when the timeout callback resolved that call with `null`.  A
`callWorker` invocation that finds no attached worker resolves `null`
without allocating an id; those are counted by `immediateNulls`.  Messages
given to `worker.postMessage` are recorded in `posted` as (type tag, id). -/

/-- The `window.setTimeout` delay in `callWorker`: 5000 ms. -/
def CALL_TIMEOUT_MS : Nat := 5000

/-- Client-bridge state (refs and hooks of `MonacoEditor`, plus ghost
fields). `timers` holds (request id, armed delay in ms) for every
not-yet-fired, not-yet-cancelled timeout. -/
structure BridgeState where
  workerAttached : Bool
  ready : Bool
  requestIdCounter : Nat
  pending : List ReqId
  timers : List (ReqId × Nat)
  resolutions : List (ReqId × Option WResp)
  posted : List (String × ReqId)
  immediateNulls : Nat
deriving Repr

/-- Bridge state right after the mount effect spawned the worker (before
`callWorker("initialize")` runs). -/
def initBridge : BridgeState :=
  { workerAttached := true, ready := false, requestIdCounter := 0
    pending := [], timers := [], resolutions := [], posted := []
    immediateNulls := 0 }

/-- UI-thread events that mutate the bridge state. -/
inductive BridgeEvent
  | call (kind : String) (now : Nat)
  | response (r : WResp)
  | timeoutFire (id : ReqId)
  | terminate

/-- Helper for `bridgeStep` below, which embeds one UI-thread event handler
execution, following the source:

* `call`: `callWorker` returns `null` at once when `workerRef.current` is
  null; otherwise it increments the counter, builds the id, arms a 5000 ms
  timer, stores the resolver in `pendingRequests`, and posts the request.
* `response`: `worker.onmessage` looks the id up in `pendingRequests`; on a
  hit it deletes the entry and runs the resolver (which cancels the timer
  and resolves the promise with the response); on a miss the message is
  dropped.  Independently, an `initialized` message updates
  `isWorkerReady` to its `success` flag (factored out as
  `applyReadyUpdate`).
* `timeoutFire`: the armed timer for `id` is consumed; the callback
  deletes the entry and resolves `null` only when `pendingRequests` still
  holds `id`.
* `terminate`: the effect cleanup — `pendingRequests.current.clear()`,
  `setIsWorkerReady(false)`, `worker.terminate()`, `workerRef.current =
  null`.  Timers are not cancelled and no resolver is run. -/
def applyReadyUpdate (r : WResp) (s : BridgeState) : BridgeState :=
  match r with
  | .initialized _ success _ => { s with ready := success }
  | _ => s

/-- See the comment block above: one UI-thread event handler execution.
`applyReadyUpdate` right above is the tail of the `worker.onmessage`
handler (the `setIsWorkerReady(message.success)` branch). -/
def bridgeStep (s : BridgeState) (e : BridgeEvent) : BridgeState :=
  match e with
  | .call kind now =>
    if s.workerAttached then
      let c := s.requestIdCounter + 1
      let id : ReqId := (kind, now, c)
      { s with requestIdCounter := c
               timers := s.timers ++ [(id, CALL_TIMEOUT_MS)]
               pending := s.pending ++ [id]
               posted := s.posted ++ [(kind, id)] }
    else { s with immediateNulls := s.immediateNulls + 1 }
  | .response r =>
    let id := r.requestId
    let s1 :=
      if id ∈ s.pending then
        { s with pending := s.pending.filter (fun x => decide (x ≠ id))
                 timers := s.timers.filter (fun t => decide (t.1 ≠ id))
                 resolutions := s.resolutions ++ [(id, some r)] }
      else s
    applyReadyUpdate r s1
  | .timeoutFire id =>
    if s.timers.any (fun t => decide (t.1 = id)) then
      let s1 := { s with timers := s.timers.filter (fun t => decide (t.1 ≠ id)) }
      if id ∈ s1.pending then
        { s1 with pending := s1.pending.filter (fun x => decide (x ≠ id))
                  resolutions := s1.resolutions ++ [(id, none)] }
      else s1
    else s
  | .terminate =>
    { s with pending := [], ready := false, workerAttached := false }

/-- A sequence of UI-thread events, folded over `bridgeStep`. -/
def bridgeRun (s : BridgeState) (es : List BridgeEvent) : BridgeState :=
  es.foldl bridgeStep s

/-- How many times the promise of request `id` has been resolved. -/
def countRes (s : BridgeState) (id : ReqId) : Nat :=
  s.resolutions.countP (fun p => decide (p.1 = id))

/-! ### Editor integration adapters (`MonacoEditor.tsx`) -/

/-- The monaco `CompletionItemKind` values used by the provider. -/
inductive CompletionItemKind
  | Function
  | Class
  | Module
  | Field
  | Property
  | Keyword
  | Text
deriving DecidableEq, Repr

/-- The `switch (item.type)` inside `provideCompletionItems`. -/
def kindOfType (t : String) : CompletionItemKind :=
  match t with
  | "function" | "method" => CompletionItemKind.Function
  | "class" => CompletionItemKind.Class
  | "module" => CompletionItemKind.Module
  | "instance" => CompletionItemKind.Field
  | "param" | "property" => CompletionItemKind.Property
  | "keyword" | "statement" => CompletionItemKind.Keyword
  | _ => CompletionItemKind.Text

/-- The replacement range computed from `getWordUntilPosition` — opaque to
the item mapping, which copies it into every suggestion. -/
structure MonacoRange where
  startLineNumber : Int
  startColumn : Int
  endLineNumber : Int
  endColumn : Int
deriving DecidableEq, Repr

/-- One monaco completion suggestion as built by `provideCompletionItems`. -/
structure MonacoSuggestion where
  label : String
  kind : CompletionItemKind
  detail : String
  documentation : Option String
  insertText : String
  filterText : String
  range : MonacoRange
deriving DecidableEq, Repr

/-- The per-item mapping inside `response.data.map(...)` of
`provideCompletionItems`: `detail` is `item.signature || item.description`,
`documentation` is present only for a truthy docstring, and both
`insertText` and `filterText` are `item.name`. -/
def toSuggestion (range : MonacoRange) (item : WorkerCompletionItem) :
    MonacoSuggestion :=
  { label := item.name
    kind := kindOfType item.type
    detail := if item.signature = "" then item.description else item.signature
    documentation := if item.docstring = "" then none else some item.docstring
    insertText := item.name
    filterText := item.name
    range := range }

/-- `provideCompletionItems`: short-circuits to no suggestions without
calling `callWorker` when `workerReadyRef` is false (second component: how
many messages the invocation sends).  Otherwise `resp` is what the awaited
`callWorker("completion", ...)` returned; a `null` or non-`completion`
response yields no suggestions. -/
def provideCompletionItems (workerReady : Bool) (range : MonacoRange)
    (resp : Option WResp) : List MonacoSuggestion × Nat :=
  if !workerReady then ([], 0)
  else
    match resp with
    | some (WResp.completion _ items) => (items.map (toSuggestion range), 1)
    | _ => ([], 1)

/-- `IMarkdownString` with the `isTrusted := false` wrapping applied by
`provideHover`. -/
structure MarkdownString where
  value : String
  isTrusted : Bool
deriving DecidableEq, Repr

/-- `provideHover`: short-circuits to `null` without calling `callWorker`
when `workerReadyRef` is false; otherwise unwraps the hover payload into an
untrusted markdown block. -/
def provideHover (workerReady : Bool) (resp : Option WResp) :
    Option MarkdownString × Nat :=
  if !workerReady then (none, 0)
  else
    match resp with
    | some (WResp.hover _ (some payload)) =>
      (some { value := payload.value, isTrusted := false }, 1)
    | _ => (none, 1)

/-- `handleEditorChange`: posts one `analyze` call only when
`isWorkerReady` and the changed value are both truthy (an `undefined` or
empty document sends nothing).  Result: how many messages are sent. -/
def handleEditorChange (isWorkerReady : Bool) (value : Option String) : Nat :=
  match value with
  | none => 0
  | some v => if isWorkerReady && !v.isEmpty then 1 else 0

/-! ### Bridge correlation invariant

`pendingRequests` keys are never reused (the counter component of a fresh
id strictly exceeds every id the bridge has seen), each promise is resolved
at most once, and a pending entry's promise is still unresolved. -/

/-- Correlation invariant over the reachable bridge states. -/
def BridgeInv (s : BridgeState) : Prop :=
  (∀ id ∈ s.pending, reqCounter id ≤ s.requestIdCounter) ∧
  (∀ p ∈ s.resolutions, reqCounter p.1 ≤ s.requestIdCounter) ∧
  s.pending.Nodup ∧
  (∀ id ∈ s.pending, countRes s id = 0) ∧
  ∀ id : ReqId, countRes s id ≤ 1

theorem countP_concat {α : Type} (f : α → Bool) (l : List α) (a : α) :
    (l ++ [a]).countP f = l.countP f + (if f a then 1 else 0) := by
  simp [List.countP_append, List.countP_cons]

theorem mem_filter_ne {l : List ReqId} {x id : ReqId} :
    x ∈ l.filter (fun y => decide (y ≠ id)) ↔ x ∈ l ∧ x ≠ id := by
  simp [List.mem_filter]

theorem nodup_concat_of_not_mem {l : List ReqId} {a : ReqId}
    (h : l.Nodup) (ha : a ∉ l) : (l ++ [a]).Nodup := by
  refine h.append (List.nodup_singleton a) ?_
  intro x hx hx'
  rw [List.mem_singleton] at hx'
  exact ha (hx' ▸ hx)

theorem applyReadyUpdate_fields (r : WResp) (s : BridgeState) :
    (applyReadyUpdate r s).pending = s.pending ∧
    (applyReadyUpdate r s).resolutions = s.resolutions ∧
    (applyReadyUpdate r s).requestIdCounter = s.requestIdCounter ∧
    (applyReadyUpdate r s).timers = s.timers ∧
    (applyReadyUpdate r s).posted = s.posted ∧
    (applyReadyUpdate r s).workerAttached = s.workerAttached := by
  cases r <;> exact ⟨rfl, rfl, rfl, rfl, rfl, rfl⟩

theorem bridgeInv_applyReadyUpdate {r : WResp} {s : BridgeState}
    (h : BridgeInv s) : BridgeInv (applyReadyUpdate r s) := by
  cases r <;> exact h

/-- Both resolution paths (matching response, timeout with a live entry)
remove the pending entry and record exactly one new resolution; they
preserve the invariant. -/
theorem bridgeInv_resolve (s : BridgeState) (id : ReqId) (v : Option WResp)
    (ts : List (ReqId × Nat)) (h : BridgeInv s) (hid : id ∈ s.pending) :
    BridgeInv { s with
      pending := s.pending.filter (fun x => decide (x ≠ id))
      timers := ts
      resolutions := s.resolutions ++ [(id, v)] } := by
  obtain ⟨h1, h2, h3, h4, h5⟩ := h
  refine ⟨?_, ?_, ?_, ?_, ?_⟩
  · intro x hx
    exact h1 x (mem_filter_ne.mp hx).1
  · intro p hp
    rcases List.mem_append.mp hp with hp | hp
    · exact h2 p hp
    · rw [List.mem_singleton] at hp
      subst hp
      exact h1 id hid
  · exact h3.filter _
  · intro x hx
    obtain ⟨hxl, hxne⟩ := mem_filter_ne.mp hx
    show (s.resolutions ++ [(id, v)]).countP (fun p => decide (p.1 = x)) = 0
    rw [countP_concat]
    simp only [decide_eq_true_eq]
    rw [if_neg (by simpa using hxne.symm)]
    simpa [countRes] using h4 x hxl
  · intro y
    show (s.resolutions ++ [(id, v)]).countP (fun p => decide (p.1 = y)) ≤ 1
    rw [countP_concat]
    simp only [decide_eq_true_eq]
    by_cases hy : id = y
    · subst hy
      have := h4 id hid
      simp only [countRes] at this
      simp [this]
    · rw [if_neg hy]
      simpa [countRes] using h5 y

theorem bridgeInv_step (s : BridgeState) (e : BridgeEvent)
    (h : BridgeInv s) : BridgeInv (bridgeStep s e) := by
  obtain ⟨h1, h2, h3, h4, h5⟩ := h
  cases e with
  | call kind now =>
    cases hw : s.workerAttached with
    | false => simpa only [bridgeStep, hw, Bool.false_eq_true, if_false] using
        ⟨h1, h2, h3, h4, h5⟩
    | true =>
      simp only [bridgeStep, hw, if_true]
      have hfresh : ((kind, now, s.requestIdCounter + 1) : ReqId) ∉ s.pending := by
        intro hmem
        exact Nat.not_succ_le_self s.requestIdCounter (h1 _ hmem)
      refine ⟨?_, ?_, ?_, ?_, h5⟩
      · intro x hx
        rcases List.mem_append.mp hx with hx | hx
        · exact Nat.le_succ_of_le (h1 x hx)
        · rw [List.mem_singleton] at hx
          subst hx
          exact Nat.le_refl _
      · intro p hp
        exact Nat.le_succ_of_le (h2 p hp)
      · exact nodup_concat_of_not_mem h3 hfresh
      · intro x hx
        rcases List.mem_append.mp hx with hx | hx
        · exact h4 x hx
        · rw [List.mem_singleton] at hx
          subst hx
          show s.resolutions.countP _ = 0
          rw [List.countP_eq_zero]
          intro p hp
          simp only [decide_eq_true_eq]
          intro hpid
          have := h2 p hp
          rw [hpid] at this
          exact Nat.not_succ_le_self s.requestIdCounter this
  | response r =>
    by_cases hid : r.requestId ∈ s.pending
    · simp only [bridgeStep, hid, if_true]
      exact bridgeInv_applyReadyUpdate
        (bridgeInv_resolve s r.requestId (some r) _ ⟨h1, h2, h3, h4, h5⟩ hid)
    · simp only [bridgeStep, hid, if_false]
      exact bridgeInv_applyReadyUpdate ⟨h1, h2, h3, h4, h5⟩
  | timeoutFire id =>
    by_cases harm : s.timers.any (fun t => decide (t.1 = id)) = true
    · simp only [bridgeStep, harm, if_true]
      by_cases hid : id ∈ s.pending
      · simp only [hid, if_true]
        exact bridgeInv_resolve s id none _ ⟨h1, h2, h3, h4, h5⟩ hid
      · simp only [hid, if_false]
        exact ⟨h1, h2, h3, h4, h5⟩
    · simp only [bridgeStep, harm, if_false]
      exact ⟨h1, h2, h3, h4, h5⟩
  | terminate =>
    refine ⟨?_, h2, ?_, ?_, h5⟩ <;> simp [bridgeStep]

theorem bridgeInv_init : BridgeInv initBridge := by
  refine ⟨?_, ?_, ?_, ?_, ?_⟩ <;> simp [initBridge, countRes]

theorem bridgeInv_run (s : BridgeState) (es : List BridgeEvent)
    (h : BridgeInv s) : BridgeInv (bridgeRun s es) := by
  induction es generalizing s with
  | nil => exact h
  | cons e es ih => exact ih (bridgeStep s e) (bridgeInv_step s e h)

/-! ### A cleared-but-unresolved request stays unresolved

`pendingRequests.current.clear()` in the effect cleanup removes entries
without running their resolvers.  Afterwards no event can ever resolve such
a request: both resolution paths require the id to be in the table, and a
fresh call can never recreate the same id (its counter is strictly
larger). -/

/-- Request `id` has no live pending entry, its promise has never been
resolved, and its counter is not in the bridge's future. -/
def DeadId (s : BridgeState) (id : ReqId) : Prop :=
  id ∉ s.pending ∧ countRes s id = 0 ∧ reqCounter id ≤ s.requestIdCounter

theorem deadId_applyReadyUpdate {r : WResp} {s : BridgeState} {id : ReqId}
    (h : DeadId s id) : DeadId (applyReadyUpdate r s) id := by
  cases r <;> exact h

theorem deadId_resolveOther {s : BridgeState} {id rid : ReqId}
    (v : Option WResp) (ts : List (ReqId × Nat)) (h : DeadId s id)
    (hne : rid ≠ id) :
    DeadId { s with
      pending := s.pending.filter (fun x => decide (x ≠ rid))
      timers := ts
      resolutions := s.resolutions ++ [(rid, v)] } id := by
  obtain ⟨hp, hc, hb⟩ := h
  refine ⟨fun hm => hp (mem_filter_ne.mp hm).1, ?_, hb⟩
  show (s.resolutions ++ [(rid, v)]).countP (fun p => decide (p.1 = id)) = 0
  rw [countP_concat]
  simp only [decide_eq_true_eq]
  rw [if_neg hne]
  simpa [countRes] using hc

theorem deadId_step (s : BridgeState) (e : BridgeEvent) (id : ReqId)
    (h : DeadId s id) : DeadId (bridgeStep s e) id := by
  obtain ⟨hp, hc, hb⟩ := h
  cases e with
  | call kind now =>
    cases hw : s.workerAttached with
    | false =>
      simpa only [bridgeStep, hw, Bool.false_eq_true, if_false] using ⟨hp, hc, hb⟩
    | true =>
      simp only [bridgeStep, hw, if_true]
      refine ⟨?_, hc, Nat.le_succ_of_le hb⟩
      intro hm
      rcases List.mem_append.mp hm with hm | hm
      · exact hp hm
      · rw [List.mem_singleton] at hm
        have : reqCounter id = s.requestIdCounter + 1 := by rw [hm]; rfl
        rw [this] at hb
        exact Nat.not_succ_le_self s.requestIdCounter hb
  | response r =>
    by_cases hid : r.requestId ∈ s.pending
    · simp only [bridgeStep, hid, if_true]
      refine deadId_applyReadyUpdate (deadId_resolveOther (some r) _ ⟨hp, hc, hb⟩ ?_)
      intro hEq
      exact hp (hEq ▸ hid)
    · simp only [bridgeStep, hid, if_false]
      exact deadId_applyReadyUpdate ⟨hp, hc, hb⟩
  | timeoutFire tid =>
    by_cases harm : s.timers.any (fun t => decide (t.1 = tid)) = true
    · simp only [bridgeStep, harm, if_true]
      by_cases htid : tid ∈ s.pending
      · simp only [htid, if_true]
        refine deadId_resolveOther none _ ⟨hp, hc, hb⟩ ?_
        intro hEq
        exact hp (hEq ▸ htid)
      · simp only [htid, if_false]
        exact ⟨hp, hc, hb⟩
    · simp only [bridgeStep, harm, if_false]
      exact ⟨hp, hc, hb⟩
  | terminate =>
    exact ⟨List.not_mem_nil id, hc, hb⟩

theorem deadId_run (s : BridgeState) (es : List BridgeEvent) (id : ReqId)
    (h : DeadId s id) : DeadId (bridgeRun s es) id := by
  induction es generalizing s with
  | nil => exact h
  | cons e es ih => exact ih (bridgeStep s e) (deadId_step s e id h)

/-! ### Claim theorems -/

/-- C1: every worker response to a request of a known kind carries the
request's `requestId` and is the only response the worker produces for that
request, and on the client each distinct `requestId`'s promise is resolved
at most once over any event sequence (the pending-table entry is deleted
before the resolver runs, so a duplicate response finds no resolver). -/
theorem worker_correlates_and_resolves_once :
    (∀ (env : InitEnv) (s : JediState) (req : WReq),
      ((handleWorkerMessage env s req).2.map WResp.requestId)
        = [req.requestId]) ∧
    ∀ (es : List BridgeEvent) (id : ReqId),
      countRes (bridgeRun initBridge es) id ≤ 1 := by
  constructor
  · intro env s req
    cases req <;> simp [handleWorkerMessage, WReq.requestId, WResp.requestId]
  · intro es id
    exact (bridgeInv_run initBridge es bridgeInv_init).2.2.2.2 id

/-- C2: the per-call timer is 5000 ms; when it fires with the entry still
pending, the promise resolves `null` and the entry is removed; a response
arriving for an id with no pending entry is discarded without resolving
anything; over any event sequence an id is resolved at most once (so never
by both paths); and a call with no attached worker resolves `null` at once,
posting nothing and registering nothing. -/
theorem callWorker_timeout_null_paths :
    CALL_TIMEOUT_MS = 5000 ∧
    (∀ (s : BridgeState) (id : ReqId),
      s.timers.any (fun t => decide (t.1 = id)) = true →
      id ∈ s.pending →
      (bridgeStep s (BridgeEvent.timeoutFire id)).resolutions
          = s.resolutions ++ [(id, none)] ∧
      id ∉ (bridgeStep s (BridgeEvent.timeoutFire id)).pending) ∧
    (∀ (s : BridgeState) (r : WResp),
      r.requestId ∉ s.pending →
      (bridgeStep s (BridgeEvent.response r)).resolutions = s.resolutions ∧
      (bridgeStep s (BridgeEvent.response r)).pending = s.pending) ∧
    (∀ (es : List BridgeEvent) (id : ReqId),
      countRes (bridgeRun initBridge es) id ≤ 1) ∧
    ∀ (s : BridgeState) (kind : String) (now : Nat),
      s.workerAttached = false →
      bridgeStep s (BridgeEvent.call kind now)
        = { s with immediateNulls := s.immediateNulls + 1 } := by
  refine ⟨rfl, ?_, ?_, ?_, ?_⟩
  · intro s id harm hid
    simp only [bridgeStep, harm, if_true, hid]
    refine ⟨by trivial, ?_⟩
    intro hm
    exact (mem_filter_ne.mp hm).2 rfl
  · intro s r hid
    simp only [bridgeStep, hid, if_false]
    exact ⟨(applyReadyUpdate_fields r s).2.1, (applyReadyUpdate_fields r s).1⟩
  · intro es id
    exact (bridgeInv_run initBridge es bridgeInv_init).2.2.2.2 id
  · intro s kind now hw
    simp [bridgeStep, hw]

/-- Concrete bridge state with one completion request in flight
(`callWorker("completion", ...)` at `Date.now() = 0`, counter 1). -/
def oneCallState : BridgeState :=
  bridgeRun initBridge [BridgeEvent.call "completion" 0]

/-- The id allocated by the call in `oneCallState`. -/
def oneCallId : ReqId := ("completion", 0, 1)

/-- Witness for `callWorker_timeout_null_paths` at concrete inputs: a state
with one armed, pending request for the timeout part; `initBridge` with a
stray response for the discard part; a detached bridge for the
null-without-sending part. -/
theorem callWorker_timeout_null_paths_witness :
    (oneCallState.timers.any (fun t => decide (t.1 = oneCallId)) = true ∧
      oneCallId ∈ oneCallState.pending ∧
      (bridgeStep oneCallState (BridgeEvent.timeoutFire oneCallId)).resolutions
          = oneCallState.resolutions ++ [(oneCallId, none)] ∧
      oneCallId ∉ (bridgeStep oneCallState
          (BridgeEvent.timeoutFire oneCallId)).pending) ∧
    ((WResp.analysis ("analyze", 3, 7) []).requestId ∉ initBridge.pending ∧
      (bridgeStep initBridge
          (BridgeEvent.response (WResp.analysis ("analyze", 3, 7) []))).resolutions
        = initBridge.resolutions) ∧
    ((bridgeStep initBridge BridgeEvent.terminate).workerAttached = false ∧
      bridgeStep (bridgeStep initBridge BridgeEvent.terminate)
          (BridgeEvent.call "hover" 9)
        = { bridgeStep initBridge BridgeEvent.terminate with
            immediateNulls :=
              (bridgeStep initBridge BridgeEvent.terminate).immediateNulls + 1 }) := by
  refine ⟨⟨by decide, by decide, ?_, ?_⟩, ⟨by decide, ?_⟩, ⟨by decide, ?_⟩⟩
  · exact (callWorker_timeout_null_paths.2.1 oneCallState oneCallId
      (by decide) (by decide)).1
  · exact (callWorker_timeout_null_paths.2.1 oneCallState oneCallId
      (by decide) (by decide)).2
  · exact (callWorker_timeout_null_paths.2.2.1 initBridge
      (WResp.analysis ("analyze", 3, 7) []) (by decide)).1
  · exact callWorker_timeout_null_paths.2.2.2.2
      (bridgeStep initBridge BridgeEvent.terminate) "hover" 9 (by decide)

/-- C3 counterexample: with one request in flight, the effect cleanup
(`terminate`) empties the pending table but resolves nothing — the
in-flight promise has no resolution entry, and neither its later-firing
timer (whose callback finds the table without the id) nor a later-arriving
response can resolve it.  This refutes the claim that all in-flight
promises are resolved on termination. -/
theorem terminate_unresolved_cex :
    oneCallState.pending = [oneCallId] ∧
    (bridgeStep oneCallState BridgeEvent.terminate).pending = [] ∧
    (bridgeStep oneCallState BridgeEvent.terminate).resolutions = [] ∧
    (bridgeStep (bridgeStep oneCallState BridgeEvent.terminate)
        (BridgeEvent.timeoutFire oneCallId)).resolutions = [] ∧
    (bridgeStep (bridgeStep oneCallState BridgeEvent.terminate)
        (BridgeEvent.response (WResp.completion oneCallId []))).resolutions
      = [] := by
  refine ⟨?_, ?_, ?_, ?_, ?_⟩ <;> decide

/-- C3 amended: terminating the worker empties the pending table, resets
readiness, and leaves every one of the N in-flight promises unresolved
forever — the cleanup runs no resolver (the resolutions log does not
change), and no subsequent event sequence can resolve a request that was
in flight when the table was cleared. -/
theorem terminate_clears_without_resolving :
    ∀ (s : BridgeState) (id : ReqId) (es : List BridgeEvent),
      BridgeInv s → id ∈ s.pending →
      (bridgeStep s BridgeEvent.terminate).pending = [] ∧
      (bridgeStep s BridgeEvent.terminate).ready = false ∧
      (bridgeStep s BridgeEvent.terminate).resolutions = s.resolutions ∧
      countRes (bridgeRun (bridgeStep s BridgeEvent.terminate) es) id = 0 := by
  intro s id es hinv hid
  refine ⟨rfl, rfl, rfl, ?_⟩
  have hdead : DeadId (bridgeStep s BridgeEvent.terminate) id := by
    refine ⟨List.not_mem_nil id, ?_, hinv.1 id hid⟩
    show countRes s id = 0
    exact hinv.2.2.2.1 id hid
  exact (deadId_run _ es id hdead).2.1

/-- Witness for `terminate_clears_without_resolving`: the one-in-flight
state, its request id, and an arbitrary later event sequence (the fired
timer followed by another call). -/
theorem terminate_clears_without_resolving_witness :
    ("completion", 0, 1) ∈ oneCallState.pending ∧
    ((bridgeStep oneCallState BridgeEvent.terminate).pending = [] ∧
      (bridgeStep oneCallState BridgeEvent.terminate).ready = false ∧
      (bridgeStep oneCallState BridgeEvent.terminate).resolutions
        = oneCallState.resolutions ∧
      countRes (bridgeRun (bridgeStep oneCallState BridgeEvent.terminate)
          [BridgeEvent.timeoutFire ("completion", 0, 1),
           BridgeEvent.call "hover" 4]) ("completion", 0, 1) = 0) :=
  ⟨by decide,
    terminate_clears_without_resolving oneCallState ("completion", 0, 1)
      [BridgeEvent.timeoutFire ("completion", 0, 1), BridgeEvent.call "hover" 4]
      (bridgeInv_run initBridge [BridgeEvent.call "completion" 0] bridgeInv_init)
      (by decide)⟩

/-! ### `initializeJedi` bootstrap chain lemmas -/

theorem importModuleStep_log_le (env : InitEnv) (s : JediState) :
    s.log.length ≤ (importModuleStep env s).1.log.length ∧
    ((importModuleStep env s).2 = false →
      s.log.length < (importModuleStep env s).1.log.length) := by
  unfold importModuleStep
  split_ifs <;> simp [List.length_append]

theorem importModuleStep_flag (env : InitEnv) (s : JediState) :
    (importModuleStep env s).1.jediInitialized = s.jediInitialized := by
  unfold importModuleStep
  split_ifs <;> rfl

theorem loadPyodideStep_log (env : InitEnv) (s : JediState) :
    (loadPyodideStep env s).1.log = s.log ++ [InitStep.loadPyodide] := by
  unfold loadPyodideStep
  split_ifs <;> rfl

theorem loadPyodideStep_flag (env : InitEnv) (s : JediState) :
    (loadPyodideStep env s).1.jediInitialized = s.jediInitialized := by
  unfold loadPyodideStep
  split_ifs <;> rfl

/-- Main chain lemma: on a not-yet-initialized state, `initializeJedi`
always attempts at least one bootstrap operation (the ghost log strictly
grows), and the resulting `jediInitialized` flag equals the success
result. -/
theorem initializeJedi_chain (env : InitEnv) (s : JediState)
    (hj : s.jediInitialized = false) :
    s.log.length < (initializeJedi env s).1.log.length ∧
    (initializeJedi env s).1.jediInitialized = (initializeJedi env s).2 := by
  unfold initializeJedi
  rw [hj]
  simp only [Bool.false_eq_true, if_false]
  rcases him : importModuleStep env s with ⟨s1, b1⟩
  have h1log := importModuleStep_log_le env s
  have h1flag := importModuleStep_flag env s
  rw [him] at h1log h1flag
  cases b1 with
  | false =>
    simp only []
    exact ⟨h1log.2 rfl, by rw [h1flag, hj]⟩
  | true =>
    simp only []
    rcases hlp : loadPyodideStep env s1 with ⟨s2, b2⟩
    have h2log := loadPyodideStep_log env s1
    have h2flag := loadPyodideStep_flag env s1
    rw [hlp] at h2log h2flag
    have h2len : s.log.length < s2.log.length := by
      rw [h2log, List.length_append]
      exact Nat.lt_succ_of_le (by simpa using h1log.1)
    have h2f : s2.jediInitialized = false := by rw [h2flag, h1flag, hj]
    cases b2 with
    | false => exact ⟨h2len, h2f⟩
    | true =>
      rcases hmp : loadMicropipStep env s2 with ⟨s3, b3⟩
      dsimp only
      rw [hmp]
      have h3log : s3.log = s2.log ++ [InitStep.loadMicropip] :=
        congrArg (fun p => JediState.log p.1) hmp.symm
      have h3flag : s3.jediInitialized = s2.jediInitialized :=
        congrArg (fun p => JediState.jediInitialized p.1) hmp.symm
      have h3len : s.log.length < s3.log.length := by
        rw [h3log, List.length_append]
        exact Nat.lt_of_lt_of_le h2len (Nat.le_add_right _ _)
      have h3f : s3.jediInitialized = false := by rw [h3flag, h2f]
      cases b3 with
      | false => exact ⟨h3len, h3f⟩
      | true =>
        rcases his : installScriptStep env s3 with ⟨s4, b4⟩
        dsimp only
        rw [his]
        have h4log : s4.log = s3.log ++ [InitStep.installJediParso] :=
          congrArg (fun p => JediState.log p.1) his.symm
        have h4flag : s4.jediInitialized = s3.jediInitialized :=
          congrArg (fun p => JediState.jediInitialized p.1) his.symm
        have h4len : s.log.length < s4.log.length := by
          rw [h4log, List.length_append]
          exact Nat.lt_of_lt_of_le h3len (Nat.le_add_right _ _)
        have h4f : s4.jediInitialized = false := by rw [h4flag, h3f]
        cases b4 with
        | false => exact ⟨h4len, h4f⟩
        | true =>
          rcases hbs : bootstrapStep env s4 with ⟨s5, b5⟩
          dsimp only
          rw [hbs]
          have h5log : s5.log = s4.log ++ [InitStep.runBootstrap] :=
            congrArg (fun p => JediState.log p.1) hbs.symm
          have h5flag : s5.jediInitialized = s4.jediInitialized :=
            congrArg (fun p => JediState.jediInitialized p.1) hbs.symm
          have h5len : s.log.length < s5.log.length := by
            rw [h5log, List.length_append]
            exact Nat.lt_of_lt_of_le h4len (Nat.le_add_right _ _)
          have h5f : s5.jediInitialized = false := by rw [h5flag, h4f]
          cases b5 with
          | false => exact ⟨h5len, h5f⟩
          | true => exact ⟨h5len, rfl⟩

theorem initializeJedi_already_done (env : InitEnv) (s : JediState)
    (hj : s.jediInitialized = true) : initializeJedi env s = (s, true) := by
  unfold initializeJedi
  rw [hj]
  simp

theorem initializeJedi_success_flag (env : InitEnv) (s : JediState)
    (h : (initializeJedi env s).2 = true) :
    (initializeJedi env s).1.jediInitialized = true := by
  cases hj : s.jediInitialized with
  | true => rw [initializeJedi_already_done env s hj]; exact hj
  | false => rw [(initializeJedi_chain env s hj).2]; exact h

/-- A trivial runtime oracle (every analysis yields the empty default);
used to build concrete `InitEnv` values. -/
def oracle0 : PyOracle :=
  { diagnostics := fun _ => []
    completions := fun _ _ _ => []
    hover := fun _ _ _ => none
    definitions := fun _ _ _ => [] }

/-- Environment whose `loadPyodide` call rejects (e.g. a network failure)
while every other bootstrap operation would succeed. -/
def envFailLoad : InitEnv :=
  { stepOk := fun st => decide (st ≠ InitStep.loadPyodide)
    loader := oracle0
    errText := "network error" }

/-- Environment in which every bootstrap operation succeeds. -/
def envAllOk : InitEnv :=
  { stepOk := fun _ => true, loader := oracle0, errText := "never" }

/-- C4 counterexample: after a failed Initialize (the `loadPyodide` await
rejects), handling a second Initialize request re-runs the bootstrap — the
operation log records a second `loadPyodide` attempt — contradicting the
claim that the worker never retries in response to a subsequent Initialize
request. -/
theorem failed_init_retry_cex :
    (handleWorkerMessage envFailLoad initialJediState
        (WReq.initializeReq ("initialize", 0, 1))).2
      = [WResp.initialized ("initialize", 0, 1) false (some "network error")] ∧
    (handleWorkerMessage envFailLoad initialJediState
        (WReq.initializeReq ("initialize", 0, 1))).1.log
      = [InitStep.importModule, InitStep.loadPyodide] ∧
    (handleWorkerMessage envFailLoad
        (handleWorkerMessage envFailLoad initialJediState
          (WReq.initializeReq ("initialize", 0, 1))).1
        (WReq.initializeReq ("initialize", 5, 2))).1.log
      = [InitStep.importModule, InitStep.loadPyodide, InitStep.loadPyodide] :=
  ⟨rfl, rfl, rfl⟩

theorem initializeJedi_all_ok (env : InitEnv) (s : JediState)
    (hok : ∀ st, env.stepOk st = true) (hj : s.jediInitialized = false) :
    (initializeJedi env s).2 = true := by
  by_cases hc : s.loadPyodideFn <;>
    simp [initializeJedi, importModuleStep, loadPyodideStep, loadMicropipStep,
      installScriptStep, bootstrapStep, hj, hc, hok]

/-- C4 amended: a failed Initialize leaves `jediInitialized` false and the
worker is passive (only messages trigger work), but there is no `Failed`
latch: handling any subsequent Initialize request while `jediInitialized`
is false re-runs the bootstrap, attempting at least one bootstrap
operation; and if the conditions that made the first attempt fail have
cleared (every awaited operation now succeeds), the retry in the same
worker succeeds — spawning a new worker is not the only way to retry. -/
theorem failed_init_not_latched :
    ∀ (env : InitEnv) (s : JediState) (id : ReqId),
      s.jediInitialized = false →
      s.log.length
          < (handleWorkerMessage env s (WReq.initializeReq id)).1.log.length ∧
      ((initializeJedi env s).2 = false →
        (initializeJedi env s).1.jediInitialized = false) ∧
      ((∀ st, env.stepOk st = true) →
        (initializeJedi env s).2 = true ∧
        (initializeJedi env s).1.jediInitialized = true) := by
  intro env s id hj
  refine ⟨(initializeJedi_chain env s hj).1, ?_, ?_⟩
  · intro hf
    rw [(initializeJedi_chain env s hj).2]
    exact hf
  · intro hok
    have hs := initializeJedi_all_ok env s hok hj
    exact ⟨hs, initializeJedi_success_flag env s hs⟩

/-- Witness for `failed_init_not_latched` on concrete inputs: the fresh
worker state and the all-operations-succeed environment. -/
theorem failed_init_not_latched_witness :
    initialJediState.jediInitialized = false ∧
    (initialJediState.log.length
        < (handleWorkerMessage envAllOk initialJediState
            (WReq.initializeReq ("initialize", 0, 1))).1.log.length ∧
      ((initializeJedi envAllOk initialJediState).2 = false →
        (initializeJedi envAllOk initialJediState).1.jediInitialized = false) ∧
      ((∀ st, envAllOk.stepOk st = true) →
        (initializeJedi envAllOk initialJediState).2 = true ∧
        (initializeJedi envAllOk initialJediState).1.jediInitialized = true)) :=
  ⟨rfl,
    failed_init_not_latched envAllOk initialJediState ("initialize", 0, 1) rfl⟩

theorem getRuntime_not_ready (s : JediState)
    (hj : s.jediInitialized = false) : getRuntime s = none := by
  cases h : s.pyodide <;> simp [getRuntime, h, hj]

/-- C5: before initialization has succeeded (`jediInitialized` false) every
analysis primitive returns its documented empty/null default and performs
no runtime invocation (empty ghost call list); the protocol handler
therefore answers such requests with the default payloads; and on the
client, completion/hover/analyze issued while not-ready short-circuit to
the same defaults without posting any message. -/
theorem not_ready_short_circuit :
    (∀ (s : JediState) (code : String) (line column : Int),
      s.jediInitialized = false →
      analyzeCode s code = ([], []) ∧
      getCompletions s code line column = ([], []) ∧
      getHover s code line column = (none, []) ∧
      getDefinitions s code line column = ([], [])) ∧
    (∀ (env : InitEnv) (s : JediState) (id : ReqId) (code : String)
        (line column : Int),
      s.jediInitialized = false →
      handleWorkerMessage env s (WReq.analyze id code)
          = (s, [WResp.analysis id []]) ∧
      handleWorkerMessage env s (WReq.completion id code line column)
          = (s, [WResp.completion id []]) ∧
      handleWorkerMessage env s (WReq.hover id code line column)
          = (s, [WResp.hover id none]) ∧
      handleWorkerMessage env s (WReq.definition id code line column)
          = (s, [WResp.definition id []])) ∧
    (∀ (range : MonacoRange) (resp : Option WResp),
      provideCompletionItems false range resp = ([], 0)) ∧
    (∀ (resp : Option WResp), provideHover false resp = (none, 0)) ∧
    ∀ (value : Option String), handleEditorChange false value = 0 := by
  refine ⟨?_, ?_, ?_, ?_, ?_⟩
  · intro s code line column hj
    have hrt := getRuntime_not_ready s hj
    exact ⟨by simp [analyzeCode, hrt], by simp [getCompletions, hrt],
      by simp [getHover, hrt], by simp [getDefinitions, hrt]⟩
  · intro env s id code line column hj
    have hrt := getRuntime_not_ready s hj
    refine ⟨?_, ?_, ?_, ?_⟩ <;>
      simp [handleWorkerMessage, analyzeCode, getCompletions, getHover,
        getDefinitions, hrt]
  · intro range resp
    simp [provideCompletionItems]
  · intro resp
    simp [provideHover]
  · intro value
    cases value <;> simp [handleEditorChange]

/-- Witness for `not_ready_short_circuit`: the fresh worker state (whose
`jediInitialized` is false) with concrete request data. -/
theorem not_ready_short_circuit_witness :
    initialJediState.jediInitialized = false ∧
    analyzeCode initialJediState "x = 1\n" = ([], []) ∧
    getCompletions initialJediState "x = 1\n" 1 0 = ([], []) ∧
    handleWorkerMessage envAllOk initialJediState
        (WReq.hover ("hover", 2, 4) "x = 1\n" 1 0)
      = (initialJediState, [WResp.hover ("hover", 2, 4) none]) :=
  ⟨rfl,
    (not_ready_short_circuit.1 initialJediState "x = 1\n" 1 0 rfl).1,
    (not_ready_short_circuit.1 initialJediState "x = 1\n" 1 0 rfl).2.1,
    (not_ready_short_circuit.2.1 envAllOk initialJediState ("hover", 2, 4)
      "x = 1\n" 1 0 rfl).2.2.1⟩

/-- C6: when a first Initialize succeeds, its response reports success, and
a second Initialize request on the resulting state returns immediately —
the state (in particular the bootstrap-operation log: no Pyodide reload, no
package reinstallation) is unchanged and the second response also reports
success — under any environment for the second call. -/
theorem initializeJedi_idempotent :
    ∀ (env env2 : InitEnv) (s : JediState) (id1 id2 : ReqId),
      (initializeJedi env s).2 = true →
      (handleWorkerMessage env s (WReq.initializeReq id1)).2
          = [WResp.initialized id1 true none] ∧
      handleWorkerMessage env2
          (handleWorkerMessage env s (WReq.initializeReq id1)).1
          (WReq.initializeReq id2)
        = ((handleWorkerMessage env s (WReq.initializeReq id1)).1,
            [WResp.initialized id2 true none]) := by
  intro env env2 s id1 id2 hsucc
  constructor
  · simp [handleWorkerMessage, hsucc]
  · have hflag := initializeJedi_success_flag env s hsucc
    have hsecond := initializeJedi_already_done env2 (initializeJedi env s).1 hflag
    simp [handleWorkerMessage, hsecond]

/-- Witness for `initializeJedi_idempotent`: the all-operations-succeed
environment on the fresh worker state. -/
theorem initializeJedi_idempotent_witness :
    (initializeJedi envAllOk initialJediState).2 = true ∧
    ((handleWorkerMessage envAllOk initialJediState
          (WReq.initializeReq ("initialize", 0, 1))).2
        = [WResp.initialized ("initialize", 0, 1) true none] ∧
      handleWorkerMessage envFailLoad
          (handleWorkerMessage envAllOk initialJediState
            (WReq.initializeReq ("initialize", 0, 1))).1
          (WReq.initializeReq ("initialize", 7, 2))
        = ((handleWorkerMessage envAllOk initialJediState
              (WReq.initializeReq ("initialize", 0, 1))).1,
            [WResp.initialized ("initialize", 7, 2) true none])) :=
  ⟨rfl,
    initializeJedi_idempotent envAllOk envFailLoad initialJediState
      ("initialize", 0, 1) ("initialize", 7, 2) rfl⟩

/-- The external jedi/parso capabilities one bootstrapped runtime closes
over: `jedi.Script(...).complete/help/goto`, `grammar.iter_errors`, and the
`textwrap.dedent` + `strip` composite (each query `Option`-valued, `none`
being the raised-exception case). -/
structure JediLib where
  complete : String → Int → Int → Option (List JediName)
  help : String → Int → Int → Option (List JediName)
  goto : String → Int → Int → Option (List JediName)
  iterErrors : String → Option (List ParsoError)
  dedentStrip : String → String

/-- The runtime produced by a successful bootstrap: each analysis entry
point is the corresponding Python function from
`createJediBootstrap(MAX_COMPLETIONS)` applied to the library's answers. -/
def bootstrappedOracle (lib : JediLib) : PyOracle :=
  { diagnostics := fun code => pyGetDiagnostics (lib.iterErrors code)
    completions := fun code line column =>
      pyGetCompletions MAX_COMPLETIONS lib.dedentStrip
        (lib.complete code line column)
    hover := fun code line column =>
      pyGetHover lib.dedentStrip (lib.help code line column)
    definitions := fun code line column =>
      pyGetDefinitions (lib.goto code line column) }

theorem pyGetCompletions_length_le (maxC : Nat) (ded : String → String)
    (cand : Option (List JediName)) :
    (pyGetCompletions maxC ded cand).length ≤ maxC := by
  cases cand with
  | none => simp [pyGetCompletions]
  | some l => simp [pyGetCompletions, List.length_take]

/-- C7: `get_completions` truncates to the configured maximum — 50 — no
matter how many candidates jedi produces; hence on a bootstrapped runtime
the worker's completion result never exceeds 50 items. -/
theorem completions_capped_at_max :
    MAX_COMPLETIONS = 50 ∧
    (∀ (dedentStrip : String → String) (candidates : Option (List JediName)),
      (pyGetCompletions MAX_COMPLETIONS dedentStrip candidates).length ≤ 50) ∧
    ∀ (lib : JediLib) (s : JediState) (code : String) (line column : Int),
      s.pyodide = some (bootstrappedOracle lib) →
      (getCompletions s code line column).1.length ≤ 50 := by
  refine ⟨rfl, ?_, ?_⟩
  · intro ded cand
    exact pyGetCompletions_length_le MAX_COMPLETIONS ded cand
  · intro lib s code line column hp
    cases hj : s.jediInitialized with
    | false => simp [getCompletions, getRuntime_not_ready s hj]
    | true =>
      have hrt : getRuntime s = some (bootstrappedOracle lib) := by
        simp [getRuntime, hp, hj]
      simp only [getCompletions, hrt, bootstrappedOracle]
      exact pyGetCompletions_length_le MAX_COMPLETIONS lib.dedentStrip _

/-- A jedi library oracle with no answers, and a worker state after a
successful bootstrap against it. -/
def lib0 : JediLib :=
  { complete := fun _ _ _ => none, help := fun _ _ _ => none
    goto := fun _ _ _ => none, iterErrors := fun _ => none
    dedentStrip := fun s => s }

def readyBootState : JediState :=
  { loadPyodideFn := true
    pyodide := some (bootstrappedOracle lib0)
    jediInitialized := true
    log := [InitStep.importModule, InitStep.loadPyodide,
      InitStep.loadMicropip, InitStep.installJediParso,
      InitStep.runBootstrap] }

/-- Witness for `completions_capped_at_max` at a bootstrapped state. -/
theorem completions_capped_at_max_witness :
    readyBootState.pyodide = some (bootstrappedOracle lib0) ∧
    (getCompletions readyBootState "import os\nos." 2 3).1.length ≤ 50 :=
  ⟨rfl, completions_capped_at_max.2.2 lib0 readyBootState
    "import os\nos." 2 3 rfl⟩

theorem intercalate_nil (sep : String) : String.intercalate sep [] = "" := rfl

theorem intercalate_single (sep a : String) :
    String.intercalate sep [a] = a := rfl

theorem intercalate_pair (sep a b : String) :
    String.intercalate sep [a, b] = a ++ sep ++ b := rfl

theorem isEmpty_false_of (s : String) (h : s ≠ "") : s.isEmpty = false := by
  cases he : s.isEmpty
  · rfl
  · exact absurd ((String.isEmpty_iff s).mp he) h

theorem empty_isEmpty : ("" : String).isEmpty = true := rfl

theorem sep_append_ne_empty (a b : String) : (a ++ "\n\n" ++ b) ≠ "" := by
  intro h
  have hlen := congrArg String.length h
  rw [String.length_append, String.length_append] at hlen
  have h2 : ("\n\n" : String).length = 2 := rfl
  have h0 : ("" : String).length = 0 := rfl
  rw [h2, h0] at hlen
  omega

/-- C8: the hover markdown for name `foo`, type `function`, signature
`foo()` and empty docstring is exactly the bolded header, a blank line and
the signature; in general the value is the header alone when signature and
docstring are both empty, and otherwise the header joined by a blank line
to the non-empty ones among signature and docstring (themselves joined by
a blank line when both are present). -/
theorem hover_markdown_rendering :
    renderHoverValue
        { name := "foo", type := "function", description := ""
          docstring := "", signature := "foo()" }
      = "**foo** (function)\n\nfoo()" ∧
    (∀ p : HoverRaw, p.signature = "" → p.docstring = "" →
      renderHoverValue p = "**" ++ p.name ++ "** (" ++ p.type ++ ")") ∧
    (∀ p : HoverRaw, p.signature ≠ "" → p.docstring = "" →
      renderHoverValue p
        = "**" ++ p.name ++ "** (" ++ p.type ++ ")" ++ "\n\n"
            ++ p.signature) ∧
    (∀ p : HoverRaw, p.signature = "" → p.docstring ≠ "" →
      renderHoverValue p
        = "**" ++ p.name ++ "** (" ++ p.type ++ ")" ++ "\n\n"
            ++ p.docstring) ∧
    ∀ p : HoverRaw, p.signature ≠ "" → p.docstring ≠ "" →
      renderHoverValue p
        = "**" ++ p.name ++ "** (" ++ p.type ++ ")" ++ "\n\n"
            ++ (p.signature ++ "\n\n" ++ p.docstring) := by
  refine ⟨by decide, ?_, ?_, ?_, ?_⟩
  · intro p hs hd
    simp only [renderHoverValue, hs, hd, List.filter_cons, List.filter_nil,
      empty_isEmpty]
    norm_num [intercalate_nil, empty_isEmpty]
  · intro p hs hd
    have h1 := isEmpty_false_of p.signature hs
    simp only [renderHoverValue, hd, List.filter_cons, List.filter_nil, h1,
      empty_isEmpty]
    norm_num [intercalate_single, h1]
  · intro p hs hd
    have h1 := isEmpty_false_of p.docstring hd
    simp only [renderHoverValue, hs, List.filter_cons, List.filter_nil, h1,
      empty_isEmpty]
    norm_num [intercalate_single, h1]
  · intro p hs hd
    have h1 := isEmpty_false_of p.signature hs
    have h2 := isEmpty_false_of p.docstring hd
    have h3 := isEmpty_false_of _ (sep_append_ne_empty p.signature p.docstring)
    simp only [renderHoverValue, List.filter_cons, List.filter_nil, h1, h2]
    norm_num [intercalate_pair, h3]

/-- Witness for `hover_markdown_rendering` at concrete hover payloads. -/
theorem hover_markdown_rendering_witness :
    (("foo()" : String) ≠ "" ∧
      renderHoverValue
          { name := "foo", type := "function", description := ""
            docstring := "", signature := "foo()" }
        = "**foo** (function)" ++ "\n\n" ++ "foo()") ∧
    (("Docs." : String) ≠ "" ∧
      renderHoverValue
          { name := "str", type := "class", description := ""
            docstring := "Docs.", signature := "str(x)" }
        = "**str** (class)" ++ "\n\n" ++ ("str(x)" ++ "\n\n" ++ "Docs.")) ∧
    renderHoverValue
        { name := "x", type := "instance", description := ""
          docstring := "", signature := "" }
      = "**x** (instance)" :=
  ⟨⟨by decide,
      hover_markdown_rendering.2.2.1
        { name := "foo", type := "function", description := ""
          docstring := "", signature := "foo()" } (by decide) rfl⟩,
    ⟨by decide,
      hover_markdown_rendering.2.2.2.2
        { name := "str", type := "class", description := ""
          docstring := "Docs.", signature := "str(x)" } (by decide) (by decide)⟩,
    hover_markdown_rendering.2.1
      { name := "x", type := "instance", description := ""
        docstring := "", signature := "" } rfl rfl⟩

/-- C9: every runtime invocation made by the completion, hover and
definition handlers carries the clamped cursor — line `max 1 line`, column
`max 0 column` — so a non-positive line or negative column never reaches
jedi. -/
theorem cursor_clamping :
    ∀ (s : JediState) (code : String) (line column : Int),
      ((1 : Int) ≤ max 1 line ∧ (0 : Int) ≤ max 0 column) ∧
      (∀ c ∈ (getCompletions s code line column).2,
        c.line = some (max 1 line) ∧ c.column = some (max 0 column)) ∧
      (∀ c ∈ (getHover s code line column).2,
        c.line = some (max 1 line) ∧ c.column = some (max 0 column)) ∧
      ∀ c ∈ (getDefinitions s code line column).2,
        c.line = some (max 1 line) ∧ c.column = some (max 0 column) := by
  intro s code line column
  refine ⟨⟨le_max_left 1 line, le_max_left 0 column⟩, ?_, ?_, ?_⟩
  · intro c hc
    cases hrt : getRuntime s with
    | none => simp [getCompletions, hrt] at hc
    | some rt =>
      simp only [getCompletions, hrt, List.mem_singleton] at hc
      subst hc
      exact ⟨rfl, rfl⟩
  · intro c hc
    cases hrt : getRuntime s with
    | none => simp [getHover, hrt] at hc
    | some rt =>
      simp only [getHover, hrt, List.mem_singleton] at hc
      subst hc
      exact ⟨rfl, rfl⟩
  · intro c hc
    cases hrt : getRuntime s with
    | none => simp [getDefinitions, hrt] at hc
    | some rt =>
      simp only [getDefinitions, hrt, List.mem_singleton] at hc
      subst hc
      exact ⟨rfl, rfl⟩

/-- The runtime call recorded for `getCompletions` at cursor (-5, -7):
the clamped line 1 and column 0. -/
def clampedCall : PyCall :=
  { fn := "get_completions", code := "x", line := some 1, column := some 0 }

/-- Witness for `cursor_clamping`: an out-of-range cursor (line -5,
column -7) on a bootstrapped state is clamped to line 1, column 0. -/
theorem cursor_clamping_witness :
    clampedCall ∈ (getCompletions readyBootState "x" (-5) (-7)).2 ∧
    (clampedCall.line = some (max 1 (-5)) ∧
      clampedCall.column = some (max 0 (-7))) :=
  ⟨by decide,
    (cursor_clamping readyBootState "x" (-5) (-7)).2.1 clampedCall (by decide)⟩

/-- C10: the completion provider inserts and filters by the item's `name`
(`insertText = filterText = name`); the worker-computed `insert_text` field
is never read — changing it leaves the produced suggestion unchanged — and
the provider maps every response item through this same suggestion
builder. -/
theorem suggestion_uses_name_not_insert_text :
    ∀ (range : MonacoRange) (item : WorkerCompletionItem),
      (toSuggestion range item).insertText = item.name ∧
      (toSuggestion range item).filterText = item.name ∧
      (∀ t : String,
        toSuggestion range { item with insert_text := t }
          = toSuggestion range item) ∧
      ∀ (id : ReqId) (items : List WorkerCompletionItem),
        (provideCompletionItems true range
            (some (WResp.completion id items))).1
          = items.map (toSuggestion range) :=
  fun _ _ => ⟨rfl, rfl, fun _ => rfl, fun _ _ => rfl⟩
